import Mathlib

/-
  Shallow embedding of src/volcanobt/volcano.py (class Volcano).

  Modelling conventions:
  - Python byte strings (bytearray) are `List Nat`, one entry per byte.
  - `struct.unpack('<I', data)` requires exactly 4 bytes, else it raises
    struct.error; this is modelled with `Option` results.
  - `struct.pack("I", n)` / `struct.pack('H', n)` use native byte order,
    which is little-endian on every platform this code targets, and raise
    struct.error when the argument is a float or out of range.
  - Python `round(x)` rounds half to even.  The only rounded quantities are
    `u32 / 10`: for every 32-bit `n`, the float `n / 10` rounds to exactly
    the same integer as the rational `n / 10` under round-half-to-even
    (ties `n % 10 = 5` are dyadic rationals represented exactly, and
    non-ties are more than 0.09 away from a tie while the float error is
    below 1e-7), so rounding is computed on the integers by `round_div10`.
  - Python numbers are `int` or `float`; `fahrenheit_to_celsius` uses true
    division and therefore always returns a float, which matters because
    `struct.pack` rejects floats.  The sum type `PyNum` keeps this
    distinction; float values are idealised as exact rationals.
  - The object state of `Volcano` is the structure `VolcanoState`; the
    registered callbacks are modelled by boolean registration flags plus an
    explicit list of fired callback invocations (`Event`) returned by each
    handler.  Transport traffic is the list of `Op`s a method performs, and
    a raised Python exception is an `Err` value.
-/

namespace Volcanobt

def VOLCANO_TEMP_CURR_UUID : String := "10110001-5354-4f52-5a26-4249434b454c"

def VOLCANO_TEMP_TARGET_UUID : String := "10110003-5354-4f52-5a26-4249434b454c"

def VOLCANO_HEAT_ON_UUID : String := "1011000f-5354-4f52-5a26-4249434b454c"

def VOLCANO_HEAT_OFF_UUID : String := "10110010-5354-4f52-5a26-4249434b454c"

def VOLCANO_PUMP_ON_UUID : String := "10110013-5354-4f52-5a26-4249434b454c"

def VOLCANO_PUMP_OFF_UUID : String := "10110014-5354-4f52-5a26-4249434b454c"

def VOLCANO_LED_BRIGHTNESS_UUID : String := "10110005-5354-4f52-5a26-4249434b454c"

def VOLCANO_STAT1_REGISTER_UUID : String := "1010000c-5354-4f52-5a26-4249434b454c"

def VOLCANO_STAT2_REGISTER_UUID : String := "1010000d-5354-4f52-5a26-4249434b454c"

def VOLCANO_STAT3_REGISTER_UUID : String := "1010000e-5354-4f52-5a26-4249434b454c"

def VOLCANO_STAT1_HEATER_ON_MASK : Nat := 0x0020

def VOLCANO_STAT1_PUMP_ON_MASK : Nat := 0x2000

def VOLCANO_STAT1_AUTO_OFF_ENABLED_MASK : Nat := 0x200

def VOLCANO_STAT2_FAHRENHEIT_ENABLED_MASK : Nat := 0x200

def VOLCANO_STAT2_DISPLAY_ON_COOLING_MASK : Nat := 0x1000

def VOLCANO_STAT3_VIBRATION_ENABLED_MASK : Nat := 0x400

/-- The two temperature unit strings TEMP_CELSIUS / TEMP_FAHRENHEIT. -/
inductive TempUnit where
  | celsius
  | fahrenheit
deriving DecidableEq

/-- A Python number: `int` or `float` (float values idealised as exact
rationals; the constructor records the runtime type, which `struct.pack`
inspects). -/
inductive PyNum where
  | int : Int → PyNum
  | float : Rat → PyNum
deriving DecidableEq

/-- A callback invocation fired by the Volcano object. -/
inductive Event where
  | temperatureChanged : Int → Event
  | targetTemperatureChanged : Int → Event
  | heaterChanged : Bool → Event
  | pumpChanged : Bool → Event
  | temperatureUnitChanged : TempUnit → Event
  | displayOnCoolingChanged : Bool → Event
deriving DecidableEq

/-- A GATT transport operation performed through BTLEConnection. -/
inductive Op where
  | read : String → Op
  | write : String → List Nat → Op
deriving DecidableEq

/-- A raised Python exception, by kind. -/
inductive Err where
  | attributeError
  | structError
  | transportError
  | notConnected
  | readOnlyAttribute
deriving DecidableEq

/-- The mutable fields of a `Volcano` object (Volcano.__init__ plus the
callback registration slots; a `cb_*` flag is true when a callback has been
registered for that attribute). -/
structure VolcanoState where
  mac : String
  temperature : Int
  target_temperature : Int
  operation_hours : Option Int
  serial_number : Option String
  firmware_version : Option String
  ble_firmware_version : Option String
  auto_off_time : Option Int
  shut_off_time : Option Int
  led_brightness : Option Int
  heater_on : Bool
  pump_on : Bool
  auto_off_enabled : Bool
  temperature_unit : Option TempUnit
  display_on_cooling : Bool
  vibration_enabled : Bool
  cb_temperature : Bool
  cb_target_temperature : Bool
  cb_heater : Bool
  cb_pump : Bool
  cb_temperature_unit : Bool
  cb_display_on_cooling : Bool
deriving DecidableEq

/-- Volcano.__init__(mac): every field as initialised by the constructor. -/
def initial_state (mac : String) : VolcanoState :=
  { mac := mac
    temperature := 0
    target_temperature := 0
    operation_hours := none
    serial_number := none
    firmware_version := none
    ble_firmware_version := none
    auto_off_time := none
    shut_off_time := none
    led_brightness := none
    heater_on := false
    pump_on := false
    auto_off_enabled := false
    temperature_unit := none
    display_on_cooling := false
    vibration_enabled := false
    cb_temperature := false
    cb_target_temperature := false
    cb_heater := false
    cb_pump := false
    cb_temperature_unit := false
    cb_display_on_cooling := false }

/-- int.from_bytes(data, byteorder="little"). -/
def fromBytesLE (data : List Nat) : Nat :=
  data.foldr (fun b acc => b + 256 * acc) 0

/-- int.from_bytes(data, byteorder="big"). -/
def fromBytesBE (data : List Nat) : Nat :=
  data.foldl (fun acc b => acc * 256 + b) 0

/-- The 4 bytes of struct.pack('<I', n) (and of native-order
struct.pack('I', n) on a little-endian platform), for n < 2^32. -/
def u32leBytes (n : Nat) : List Nat :=
  [n % 256, n / 256 % 256, n / 65536 % 256, n / 16777216 % 256]

/-- The 2 bytes of struct.pack('H', n) on a little-endian platform,
for n < 2^16. -/
def u16leBytes (n : Nat) : List Nat :=
  [n % 256, n / 256 % 256]

/-- Python round(n / 10) for a nonnegative integer n: round half to even
(see the header comment for why the float detour changes nothing). -/
def round_div10 (n : Nat) : Nat :=
  if n % 10 < 5 then n / 10
  else if 5 < n % 10 then n / 10 + 1
  else if n / 10 % 2 = 0 then n / 10 else n / 10 + 1

/-- Python round on a PyNum (round of an int is the int itself; round of a
float is round half to even). -/
def roundHalfEvenRat (q : Rat) : Int :=
  if q - ⌊q⌋ < 1 / 2 then ⌊q⌋
  else if 1 / 2 < q - ⌊q⌋ then ⌊q⌋ + 1
  else if ⌊q⌋ % 2 = 0 then ⌊q⌋ else ⌊q⌋ + 1

def pyRound (x : PyNum) : Int :=
  match x with
  | .int n => n
  | .float q => roundHalfEvenRat q

/-- celsius_to_fahrenheit: (temperature * 1.8) + 32, always a float. -/
def celsius_to_fahrenheit (temperature : Rat) : Rat :=
  temperature * (9 / 5) + 32

/-- fahrenheit_to_celsius: (temperature - 32) / 1.8, always a float
(true division). -/
def fahrenheit_to_celsius (temperature : Rat) : Rat :=
  (temperature - 32) / (9 / 5)

/-- struct.pack("<I", x): raises struct.error on a float argument or an
out-of-range int, else yields the 4 little-endian bytes. -/
def packU32lePy (x : PyNum) : Option (List Nat) :=
  match x with
  | .float _ => none
  | .int n => if 0 ≤ n ∧ n < 4294967296 then some (u32leBytes n.toNat) else none

/-- Multiplication by the int literal 10 (int*int stays int, float*int
stays float). -/
def pyMul10 (x : PyNum) : PyNum :=
  match x with
  | .int n => .int (n * 10)
  | .float q => .float (q * 10)

/-- Volcano._parse_temperature: unpack '<I' (4 bytes required), divide by
10 and round; store and fire the temperature callback only when the result
is below the uint16-overflow guard 6536. `none` is a raised struct.error. -/
def parse_temperature (s : VolcanoState) (data : List Nat) :
    Option (VolcanoState × List Event) :=
  if data.length = 4 then
    let temperature : Nat := round_div10 (fromBytesLE data)
    if temperature < 6536 then
      some ({ s with temperature := (temperature : Int) },
            if s.cb_temperature then [Event.temperatureChanged (temperature : Int)] else [])
    else
      some (s, [])
  else none

/-- Volcano._parse_target_temperature: unpack '<I', divide by 10, round,
store unconditionally and fire the target-temperature callback if one is
registered. -/
def parse_target_temperature (s : VolcanoState) (data : List Nat) :
    Option (VolcanoState × List Event) :=
  if data.length = 4 then
    let temperature : Nat := round_div10 (fromBytesLE data)
    some ({ s with target_temperature := (temperature : Int) },
          if s.cb_target_temperature then [Event.targetTemperatureChanged (temperature : Int)] else [])
  else none

/-- Volcano._parse_stat1_register: little-endian integer, three masked
flags, then the heater and pump callbacks fire unconditionally when
registered. -/
def parse_stat1_register (s : VolcanoState) (data : List Nat) :
    VolcanoState × List Event :=
  let d := fromBytesLE data
  let heater := decide (Nat.land d VOLCANO_STAT1_HEATER_ON_MASK ≠ 0)
  let pump := decide (Nat.land d VOLCANO_STAT1_PUMP_ON_MASK ≠ 0)
  let autoOff := decide (Nat.land d VOLCANO_STAT1_AUTO_OFF_ENABLED_MASK = 0)
  let s1 := { s with heater_on := heater, pump_on := pump, auto_off_enabled := autoOff }
  (s1,
    (if s.cb_heater then [Event.heaterChanged heater] else []) ++
    (if s.cb_pump then [Event.pumpChanged pump] else []))

/-- Volcano._parse_stat2_register: big-endian integer over data[1:3]; each
of the two derived values is stored, and its callback fired, only when it
differs from the stored value.  (The source computes each updated field
under a single `if`; the update and the event are written here under two
syntactically repeated copies of the same test, which nothing in between
can change.) -/
def parse_stat2_register (s : VolcanoState) (data : List Nat) :
    VolcanoState × List Event :=
  let d := fromBytesBE (List.take 2 (List.drop 1 data))
  let tu := if Nat.land d VOLCANO_STAT2_FAHRENHEIT_ENABLED_MASK = 0
            then TempUnit.celsius else TempUnit.fahrenheit
  let s1 := if s.temperature_unit ≠ some tu
            then { s with temperature_unit := some tu } else s
  let ev1 := if s.temperature_unit ≠ some tu
             then (if s.cb_temperature_unit then [Event.temperatureUnitChanged tu] else [])
             else []
  let dc := decide (Nat.land d VOLCANO_STAT2_DISPLAY_ON_COOLING_MASK = 0)
  let s2 := if s1.display_on_cooling ≠ dc
            then { s1 with display_on_cooling := dc } else s1
  let ev2 := if s1.display_on_cooling ≠ dc
             then (if s1.cb_display_on_cooling then [Event.displayOnCoolingChanged dc] else [])
             else []
  (s2, ev1 ++ ev2)

/-- Volcano._parse_stat3_register: big-endian integer over data[1:3];
vibration_enabled is true exactly when the mask bit is clear. -/
def parse_stat3_register (s : VolcanoState) (data : List Nat) :
    VolcanoState × List Event :=
  let d := fromBytesBE (List.take 2 (List.drop 1 data))
  ({ s with vibration_enabled := decide (Nat.land d VOLCANO_STAT3_VIBRATION_ENABLED_MASK = 0) }, [])

/-- Volcano.convert_temp_unit: the raw value when the displayed unit is not
Fahrenheit, otherwise (temperature * 1.8) + 32 — a float, with no
rounding. -/
def convert_temp_unit (s : VolcanoState) (temperature : Int) : PyNum :=
  if s.temperature_unit = some TempUnit.fahrenheit
  then .float (celsius_to_fahrenheit (temperature : Rat))
  else .int temperature

/-- The `temperature` property getter. -/
def temperature_getter (s : VolcanoState) : PyNum :=
  convert_temp_unit s s.temperature

/-- The `target_temperature` property getter. -/
def target_temperature_getter (s : VolcanoState) : PyNum :=
  convert_temp_unit s s.target_temperature

/-- The outcome of one Volcano setter method: the object state afterwards,
the transport operations it performed, the callback invocations it fired
(none of the setters fires any), and the exception it raised, if any.  On a
raised exception the fields assigned after the failing statement keep their
prior values, so `state` is the unchanged input state.  The `ok` argument
of each setter below is whether the transport write succeeds; a failing
write raises, modelled as `Err.transportError`. -/
structure SetResult where
  state : VolcanoState
  ops : List Op
  events : List Event
  err : Option Err
deriving DecidableEq

/-- Volcano.set_heater: write b'\x00' to the on- or off-UUID, then set the
flag. -/
def set_heater (s : VolcanoState) (state : Bool) (ok : Bool) : SetResult :=
  let heater_uuid := if state then VOLCANO_HEAT_ON_UUID else VOLCANO_HEAT_OFF_UUID
  if ok then ⟨{ s with heater_on := state }, [Op.write heater_uuid [0]], [], none⟩
  else ⟨s, [Op.write heater_uuid [0]], [], some Err.transportError⟩

/-- Volcano.set_pump: write b'\x00' to the on- or off-UUID, then set the
flag. -/
def set_pump (s : VolcanoState) (state : Bool) (ok : Bool) : SetResult :=
  let pump_uuid := if state then VOLCANO_PUMP_ON_UUID else VOLCANO_PUMP_OFF_UUID
  if ok then ⟨{ s with pump_on := state }, [Op.write pump_uuid [0]], [], none⟩
  else ⟨s, [Op.write pump_uuid [0]], [], some Err.transportError⟩

/-- Volcano.set_led_brightness: struct.pack('H', brightness) raises on an
out-of-range value, else write the 2 raw bytes, then store
round(brightness) (an int rounds to itself). -/
def set_led_brightness (s : VolcanoState) (brightness : Int) (ok : Bool) : SetResult :=
  if 0 ≤ brightness ∧ brightness < 65536 then
    if ok then
      ⟨{ s with led_brightness := some brightness },
       [Op.write VOLCANO_LED_BRIGHTNESS_UUID (u16leBytes brightness.toNat)], [], none⟩
    else
      ⟨s, [Op.write VOLCANO_LED_BRIGHTNESS_UUID (u16leBytes brightness.toNat)], [],
       some Err.transportError⟩
  else ⟨s, [], [], some Err.structError⟩

/-- Volcano.set_target_temperature: convert a Fahrenheit input back to
Celsius (a float, by true division), struct.pack("<I", temperature * 10)
— which raises struct.error whenever the conversion produced a float —
then write and store round(temperature). -/
def set_target_temperature (s : VolcanoState) (temperature : Int) (ok : Bool) : SetResult :=
  let temp : PyNum :=
    if s.temperature_unit = some TempUnit.fahrenheit
    then .float (fahrenheit_to_celsius (temperature : Rat))
    else .int temperature
  match packU32lePy (pyMul10 temp) with
  | none => ⟨s, [], [], some Err.structError⟩
  | some data =>
    if ok then
      ⟨{ s with target_temperature := pyRound temp },
       [Op.write VOLCANO_TEMP_TARGET_UUID data], [], none⟩
    else
      ⟨s, [Op.write VOLCANO_TEMP_TARGET_UUID data], [], some Err.transportError⟩

/-- Volcano.encode_bit_mask: struct.pack("I", mask if state else
mask + 0x10000).  Every call site passes a mask below 2^16, so the packed
value is in range. -/
def encode_bit_mask (mask : Nat) (state : Bool) : List Nat :=
  u32leBytes (if state then mask else mask + 0x10000)

/-- Volcano.set_temperature_unit: write the Fahrenheit toggle mask to the
stat2 register (bit cleared means Celsius), then store the unit. -/
def set_temperature_unit (s : VolcanoState) (unit : TempUnit) (ok : Bool) : SetResult :=
  let data := encode_bit_mask VOLCANO_STAT2_FAHRENHEIT_ENABLED_MASK (decide (unit = TempUnit.celsius))
  if ok then
    ⟨{ s with temperature_unit := some unit },
     [Op.write VOLCANO_STAT2_REGISTER_UUID data], [], none⟩
  else ⟨s, [Op.write VOLCANO_STAT2_REGISTER_UUID data], [], some Err.transportError⟩

/-- Volcano.set_display_on_cooling: write the toggle mask to the stat2
register, then store the flag. -/
def set_display_on_cooling (s : VolcanoState) (state : Bool) (ok : Bool) : SetResult :=
  let data := encode_bit_mask VOLCANO_STAT2_DISPLAY_ON_COOLING_MASK state
  if ok then
    ⟨{ s with display_on_cooling := state },
     [Op.write VOLCANO_STAT2_REGISTER_UUID data], [], none⟩
  else ⟨s, [Op.write VOLCANO_STAT2_REGISTER_UUID data], [], some Err.transportError⟩

/-- Volcano.set_vibration_enabled: write the toggle mask to the stat3
register, then store the flag. -/
def set_vibration_enabled (s : VolcanoState) (state : Bool) (ok : Bool) : SetResult :=
  let data := encode_bit_mask VOLCANO_STAT3_VIBRATION_ENABLED_MASK state
  if ok then
    ⟨{ s with vibration_enabled := state },
     [Op.write VOLCANO_STAT3_REGISTER_UUID data], [], none⟩
  else ⟨s, [Op.write VOLCANO_STAT3_REGISTER_UUID data], [], some Err.transportError⟩

/-- The BTLEConnection object as the setters see it: it only exists after
Volcano.connect has run, and carries the is_connected flag the setters
never consult. -/
structure Conn where
  is_connected : Bool
deriving DecidableEq

/-- Volcano.set_heater including the access to self._conn: before connect
the attribute does not exist and Python raises AttributeError before any
transport call; with a connection object present — connected or not — the
write is handed to the transport unconditionally. -/
def set_heater_conn (conn : Option Conn) (s : VolcanoState) (state : Bool) (ok : Bool) :
    SetResult :=
  match conn with
  | none => ⟨s, [], [], some Err.attributeError⟩
  | some _ => set_heater s state ok

/-- Whether an operation list contains a GATT read. -/
def hasRead (ops : List Op) : Bool :=
  ops.any fun o => match o with
    | .read _ => true
    | .write _ _ => false

/-- Codec of a target-temperature write: struct.pack("<I", v * 10) for an
int input. -/
def encode_target_temperature (temperature : Int) : Option (List Nat) :=
  packU32lePy (pyMul10 (.int temperature))

/-- Codec of a target-temperature read (Volcano._parse_target_temperature's
value computation): round(u32le / 10). -/
def decode_target_temperature (data : List Nat) : Option Int :=
  if data.length = 4 then some ((round_div10 (fromBytesLE data) : Int)) else none

/-- Codec of an LED-brightness write (Volcano.set_led_brightness):
struct.pack('H', brightness), the raw value with no scaling. -/
def encode_led_brightness (brightness : Nat) : Option (List Nat) :=
  if brightness < 65536 then some (u16leBytes brightness) else none

/-- Codec of an LED-brightness read (Volcano.read_led_brightness):
int(unpack('H') / 10), i.e. the raw value divided by 10 and truncated. -/
def decode_led_brightness (data : List Nat) : Option Nat :=
  if data.length = 2 then some (fromBytesLE data / 10) else none

lemma fromBytesLE_u32leBytes (n : Nat) (h : n < 4294967296) :
    fromBytesLE (u32leBytes n) = n := by
  simp only [fromBytesLE, u32leBytes, List.foldr]
  omega

lemma fromBytesLE_u16leBytes (n : Nat) (h : n < 65536) :
    fromBytesLE (u16leBytes n) = n := by
  simp only [fromBytesLE, u16leBytes, List.foldr]
  omega

lemma round_div10_mul10 (n : Nat) : round_div10 (n * 10) = n := by
  have hmod : n * 10 % 10 = 0 := by omega
  have hdiv : n * 10 / 10 = n := by omega
  simp [round_div10, hmod, hdiv]

/-- C1: a current-temperature payload whose little-endian value divided by
10 rounds to 6536 or above is discarded (state kept, no callback); one
rounding below 6536 is stored and, when a callback is registered, fires it
with the decoded value. -/
theorem temperature_overflow_guard (s : VolcanoState) (data : List Nat)
    (h : data.length = 4) :
    (6536 ≤ round_div10 (fromBytesLE data) →
      parse_temperature s data = some (s, [])) ∧
    (round_div10 (fromBytesLE data) < 6536 →
      parse_temperature s data =
        some ({ s with temperature := (round_div10 (fromBytesLE data) : Int) },
              if s.cb_temperature then
                [Event.temperatureChanged (round_div10 (fromBytesLE data) : Int)]
              else [])) := by
  constructor
  · intro hge
    have hn : ¬ round_div10 (fromBytesLE data) < 6536 := by omega
    simp [parse_temperature, h, hn]
  · intro hlt
    simp [parse_temperature, h, hlt]

theorem temperature_overflow_guard_check :
    parse_temperature { initial_state "00" with cb_temperature := true } [255, 255, 0, 0] =
      some ({ initial_state "00" with cb_temperature := true }, []) ∧
    parse_temperature { initial_state "00" with cb_temperature := true } [200, 0, 0, 0] =
      some ({ initial_state "00" with cb_temperature := true, temperature := 20 },
            [Event.temperatureChanged 20]) := by
  constructor
  · exact (temperature_overflow_guard _ _ (by decide)).1 (by decide)
  · exact ((temperature_overflow_guard _ _ (by decide)).2 (by decide)).trans (by decide)

/-- C2 counterexample: status-register-1 raw value 0x2200 (bytes
[0x00, 0x22, 0x00, 0x00] little-endian) decodes to heater_on = false —
not heater_on = true as claimed — while pump_on is true. -/
theorem stat1_example_counterexample :
    (parse_stat1_register (initial_state "00") [0, 34, 0, 0]).1.heater_on = false ∧
    (parse_stat1_register (initial_state "00") [0, 34, 0, 0]).1.pump_on = true := by
  constructor <;> decide

/-- C2 amended: stat1 decodes the little-endian integer d with
heater_on ↔ d AND 0x0020 ≠ 0, pump_on ↔ d AND 0x2000 ≠ 0 and
auto_off_enabled ↔ d AND 0x0200 = 0; raw 0x0020 gives heater_on = true,
pump_on = false, and raw 0x2200 gives heater_on = false, pump_on = true. -/
theorem stat1_flag_decode (s : VolcanoState) (data : List Nat) :
    ((parse_stat1_register s data).1.heater_on = true ↔
      Nat.land (fromBytesLE data) VOLCANO_STAT1_HEATER_ON_MASK ≠ 0) ∧
    ((parse_stat1_register s data).1.pump_on = true ↔
      Nat.land (fromBytesLE data) VOLCANO_STAT1_PUMP_ON_MASK ≠ 0) ∧
    ((parse_stat1_register s data).1.auto_off_enabled = true ↔
      Nat.land (fromBytesLE data) VOLCANO_STAT1_AUTO_OFF_ENABLED_MASK = 0) ∧
    ((parse_stat1_register s [32, 0, 0, 0]).1.heater_on = true ∧
      (parse_stat1_register s [32, 0, 0, 0]).1.pump_on = false) ∧
    ((parse_stat1_register s [0, 34, 0, 0]).1.heater_on = false ∧
      (parse_stat1_register s [0, 34, 0, 0]).1.pump_on = true) := by
  refine ⟨?_, ?_, ?_, ⟨?_, ?_⟩, ⟨?_, ?_⟩⟩ <;>
    simp [parse_stat1_register, fromBytesLE, VOLCANO_STAT1_HEATER_ON_MASK,
      VOLCANO_STAT1_PUMP_ON_MASK, VOLCANO_STAT1_AUTO_OFF_ENABLED_MASK] <;>
    decide

/-- C3 counterexample: with a temperature callback registered, applying the
same current-temperature payload twice fires the callback on both
applications — the second, unchanged application fires it again, because
_parse_temperature never compares against the stored value. -/
theorem callback_idempotence_counterexample :
    parse_temperature { initial_state "00" with cb_temperature := true }
        [200, 0, 0, 0] =
      some ({ initial_state "00" with cb_temperature := true, temperature := 20 },
            [Event.temperatureChanged 20]) ∧
    parse_temperature { initial_state "00" with cb_temperature := true, temperature := 20 }
        [200, 0, 0, 0] =
      some ({ initial_state "00" with cb_temperature := true, temperature := 20 },
            [Event.temperatureChanged 20]) := by
  constructor <;> decide

/-- C3 amended: only the attributes decoded from status register 2
(temperature_unit, display_on_cooling) compare the decoded value against
the stored one, so re-applying a stat2 payload fires no callback; a
re-applied stat1 payload fires exactly the same heater/pump callbacks as
the first application, and a re-applied current-temperature payload below
the guard repeats the first application's state and callbacks verbatim. -/
theorem callback_change_detection (s : VolcanoState) (data tdata : List Nat)
    (h4 : tdata.length = 4) (hguard : round_div10 (fromBytesLE tdata) < 6536) :
    ((parse_stat2_register (parse_stat2_register s data).1 data).2 = []) ∧
    ((parse_stat1_register (parse_stat1_register s data).1 data).2 =
      (parse_stat1_register s data).2) ∧
    ((parse_temperature s tdata).bind (fun r => parse_temperature r.1 tdata) =
      parse_temperature s tdata) := by
  refine ⟨?_, ?_, ?_⟩
  · simp only [parse_stat2_register]
    by_cases hm : Nat.land (fromBytesBE (List.take 2 data.tail))
        VOLCANO_STAT2_FAHRENHEIT_ENABLED_MASK = 0
    · by_cases h1 : s.temperature_unit = some TempUnit.celsius <;>
        by_cases h2 : s.display_on_cooling =
            decide (Nat.land (fromBytesBE (List.take 2 data.tail))
                      VOLCANO_STAT2_DISPLAY_ON_COOLING_MASK = 0) <;>
        simp [hm, h1, h2, apply_ite]
    · by_cases h1 : s.temperature_unit = some TempUnit.fahrenheit <;>
        by_cases h2 : s.display_on_cooling =
            decide (Nat.land (fromBytesBE (List.take 2 data.tail))
                      VOLCANO_STAT2_DISPLAY_ON_COOLING_MASK = 0) <;>
        simp [hm, h1, h2, apply_ite]
  · simp [parse_stat1_register]
  · simp [parse_temperature, h4, hguard]

theorem callback_change_detection_check :
    ((parse_stat2_register (parse_stat2_register (initial_state "00") [0, 0, 0, 0]).1
        [0, 0, 0, 0]).2 = []) ∧
    ((parse_stat1_register (parse_stat1_register (initial_state "00") [0, 0, 0, 0]).1
        [0, 0, 0, 0]).2 =
      (parse_stat1_register (initial_state "00") [0, 0, 0, 0]).2) ∧
    ((parse_temperature (initial_state "00") [200, 0, 0, 0]).bind
        (fun r => parse_temperature r.1 [200, 0, 0, 0]) =
      parse_temperature (initial_state "00") [200, 0, 0, 0]) :=
  callback_change_detection (initial_state "00") [0, 0, 0, 0] [200, 0, 0, 0]
    (by decide) (by decide)

/-- C4: evaluation at the failing input.  With the display unit Fahrenheit,
set_target_temperature(365) turns the input into a float Celsius value by
true division and hands a float to struct.pack("<I", ...), which raises
struct.error before any transport write — the state is unchanged and no
bytes are sent; moreover the target-temperature getter returns the
unrounded float c * 1.8 + 32, never an int. -/
theorem target_temperature_fahrenheit_crash :
    set_target_temperature
        { initial_state "00" with temperature_unit := some TempUnit.fahrenheit } 365 true =
      ⟨{ initial_state "00" with temperature_unit := some TempUnit.fahrenheit }, [], [],
       some Err.structError⟩ ∧
    (∀ z : Int, target_temperature_getter
        { initial_state "00" with
          temperature_unit := some TempUnit.fahrenheit
          target_temperature := 183 } ≠ PyNum.int z) := by
  constructor
  · rfl
  · intro z
    simp [target_temperature_getter, convert_temp_unit, initial_state]

/-- C5 counterexample: a fresh Volcano holds temperature 0, the same value
a valid all-zero current-temperature payload decodes to — indeed decoding
that payload maps the fresh state to itself — and its heater flag is the
valid boolean false, so the unread fields carry no unset marker distinct
from valid decoded values. -/
theorem unset_representation_counterexample :
    (initial_state "00").temperature = 0 ∧
    parse_temperature (initial_state "00") [0, 0, 0, 0] = some (initial_state "00", []) ∧
    (initial_state "00").heater_on = false := by
  refine ⟨rfl, ?_, rfl⟩
  decide

/-- C5 amended: only operation_hours, serial_number, firmware_version,
ble_firmware_version, auto_off_time, shut_off_time, led_brightness and
temperature_unit start as the unset marker None; temperature and
target_temperature start at 0 and every boolean flag at False, values not
distinguishable from valid decodes. -/
theorem initial_state_fields (mac : String) :
    (initial_state mac).operation_hours = none ∧
    (initial_state mac).serial_number = none ∧
    (initial_state mac).firmware_version = none ∧
    (initial_state mac).ble_firmware_version = none ∧
    (initial_state mac).auto_off_time = none ∧
    (initial_state mac).shut_off_time = none ∧
    (initial_state mac).led_brightness = none ∧
    (initial_state mac).temperature_unit = none ∧
    (initial_state mac).temperature = 0 ∧
    (initial_state mac).target_temperature = 0 ∧
    (initial_state mac).heater_on = false ∧
    (initial_state mac).pump_on = false ∧
    (initial_state mac).auto_off_enabled = false ∧
    (initial_state mac).display_on_cooling = false ∧
    (initial_state mac).vibration_enabled = false :=
  ⟨rfl, rfl, rfl, rfl, rfl, rfl, rfl, rfl, rfl, rfl, rfl, rfl, rfl, rfl, rfl⟩

lemma set_target_temperature_cases (s : VolcanoState) (t : Int) (ok : Bool) :
    set_target_temperature s t ok =
      if s.temperature_unit = some TempUnit.fahrenheit then ⟨s, [], [], some Err.structError⟩
      else if 0 ≤ t ∧ t * 10 < 4294967296 then
        (if ok then
          ⟨{ s with target_temperature := t },
           [Op.write VOLCANO_TEMP_TARGET_UUID (u32leBytes (t * 10).toNat)], [], none⟩
        else
          ⟨s, [Op.write VOLCANO_TEMP_TARGET_UUID (u32leBytes (t * 10).toNat)], [],
           some Err.transportError⟩)
      else ⟨s, [], [], some Err.structError⟩ := by
  by_cases hF : s.temperature_unit = some TempUnit.fahrenheit <;>
    by_cases hr : 0 ≤ t ∧ t * 10 < 4294967296 <;>
    simp [set_target_temperature, pyMul10, packU32lePy, pyRound, hF, hr]

/-- C6: every setter performs no read; on a failed transport write the
state is unchanged (the assignment after the await never runs); on a
successful write the value is applied locally, for set_led_brightness and
set_target_temperature only when encoding did not already raise. -/
theorem setters_optimistic_update (s : VolcanoState) (t bri : Int) (b ok : Bool)
    (u : TempUnit) :
    ((set_target_temperature s t false).state = s) ∧
    ((set_heater s b false).state = s) ∧
    ((set_pump s b false).state = s) ∧
    ((set_led_brightness s bri false).state = s) ∧
    ((set_temperature_unit s u false).state = s) ∧
    ((set_display_on_cooling s b false).state = s) ∧
    ((set_vibration_enabled s b false).state = s) ∧
    ((set_heater s b true).state = { s with heater_on := b }) ∧
    ((set_pump s b true).state = { s with pump_on := b }) ∧
    ((set_temperature_unit s u true).state = { s with temperature_unit := some u }) ∧
    ((set_display_on_cooling s b true).state = { s with display_on_cooling := b }) ∧
    ((set_vibration_enabled s b true).state = { s with vibration_enabled := b }) ∧
    ((set_led_brightness s bri true).state =
      if 0 ≤ bri ∧ bri < 65536 then { s with led_brightness := some bri } else s) ∧
    ((set_target_temperature s t true).state =
      if s.temperature_unit = some TempUnit.fahrenheit then s
      else if 0 ≤ t ∧ t * 10 < 4294967296 then { s with target_temperature := t } else s) ∧
    (hasRead (set_target_temperature s t ok).ops = false) ∧
    (hasRead (set_heater s b ok).ops = false) ∧
    (hasRead (set_pump s b ok).ops = false) ∧
    (hasRead (set_led_brightness s bri ok).ops = false) ∧
    (hasRead (set_temperature_unit s u ok).ops = false) ∧
    (hasRead (set_display_on_cooling s b ok).ops = false) ∧
    (hasRead (set_vibration_enabled s b ok).ops = false) := by
  refine ⟨?_, ?_, ?_, ?_, ?_, ?_, ?_, ?_, ?_, ?_, ?_, ?_, ?_, ?_, ?_, ?_, ?_, ?_, ?_,
    ?_, ?_⟩ <;>
    simp only [set_target_temperature_cases, set_heater, set_pump, set_led_brightness,
      set_temperature_unit, set_display_on_cooling, set_vibration_enabled] <;>
    split_ifs <;>
    simp_all [hasRead]

/-- C7 counterexample: the LED-brightness codec does not round-trip — a
written value of 100 reads back as 10, because the setter writes the raw
2-byte value while the reader divides by 10. -/
theorem led_round_trip_counterexample :
    (encode_led_brightness 100).bind decode_led_brightness = some 10 ∧
    ¬ (encode_led_brightness 100).bind decode_led_brightness = some 100 := by
  constructor <;> decide

/-- C7 amended: target_temperature round-trips (decode after encode is the
identity on in-range values), but led_brightness does not: a value v
written raw reads back as v / 10 (truncated), so only 0 survives the
round trip. -/
theorem writable_round_trip (t : Int) (v : Nat) (ht0 : 0 ≤ t)
    (ht1 : t * 10 < 4294967296) (hv : v < 65536) :
    (encode_target_temperature t).bind decode_target_temperature = some t ∧
    (encode_led_brightness v).bind decode_led_brightness = some (v / 10) := by
  constructor
  · have hrange : 0 ≤ t * 10 ∧ t * 10 < 4294967296 := ⟨by omega, ht1⟩
    simp only [encode_target_temperature, pyMul10, packU32lePy, if_pos hrange,
      Option.some_bind, decode_target_temperature]
    rw [if_pos (by simp [u32leBytes])]
    rw [fromBytesLE_u32leBytes _ (by omega)]
    have hmul : (t * 10).toNat = t.toNat * 10 := by omega
    rw [hmul, round_div10_mul10]
    congr 1
    omega
  · simp only [encode_led_brightness, if_pos hv, Option.some_bind, decode_led_brightness]
    rw [if_pos (by simp [u16leBytes])]
    rw [fromBytesLE_u16leBytes _ hv]

theorem writable_round_trip_check :
    (encode_target_temperature 180).bind decode_target_temperature = some 180 ∧
    (encode_led_brightness 70).bind decode_led_brightness = some 7 := by
  have h := writable_round_trip 180 70 (by decide) (by decide) (by decide)
  exact ⟨h.1, h.2.trans (by decide)⟩

/-- C8 counterexample: a heater write attempted with a transport object
that is present but disconnected is still handed to the transport — it is
not rejected before the transport call — and a write attempted before any
connect raises AttributeError (self._conn does not exist), not a
NotConnected error. -/
theorem connection_check_counterexample :
    (set_heater_conn (some { is_connected := false }) (initial_state "00") true false).ops =
      [Op.write VOLCANO_HEAT_ON_UUID [0]] ∧
    (set_heater_conn none (initial_state "00") true true).err = some Err.attributeError ∧
    Err.attributeError ≠ Err.notConnected := by
  refine ⟨rfl, rfl, by decide⟩

/-- C8 amended: the setters perform no connection or writability check.  A
write before connect fails with AttributeError (no transport attribute) and
performs no transport call, leaving state unchanged; once a transport
object exists the write is attempted whether or not it is connected, and a
transport failure leaves state unchanged.  NotConnected and
ReadOnlyAttribute do not occur; read-only attributes merely lack setter
methods. -/
theorem write_no_connection_check (s : VolcanoState) (b ok : Bool) (c : Conn) :
    set_heater_conn none s b ok = ⟨s, [], [], some Err.attributeError⟩ ∧
    (set_heater_conn (some c) s b ok).ops =
      [Op.write (if b then VOLCANO_HEAT_ON_UUID else VOLCANO_HEAT_OFF_UUID) [0]] ∧
    ((set_heater_conn (some c) s b false).state = s) := by
  refine ⟨rfl, ?_, ?_⟩
  · simp only [set_heater_conn, set_heater]
    cases ok <;> rfl
  · rfl

/-- C9: encode_bit_mask yields exactly 4 bytes whose unsigned little-endian
value is the mask when the flag is enabled and mask + 0x10000 when it is
disabled; set_temperature_unit writes the Fahrenheit mask (state true iff
the unit is Celsius) and set_display_on_cooling / set_vibration_enabled
their masks to the stat2 / stat3 register characteristics. -/
theorem encode_bit_mask_toggle (mask : Nat) (state : Bool) (s : VolcanoState)
    (u : TempUnit) (b ok : Bool) (h : mask < 65536) :
    (encode_bit_mask mask state).length = 4 ∧
    fromBytesLE (encode_bit_mask mask state) = (if state then mask else mask + 65536) ∧
    (set_temperature_unit s u ok).ops =
      [Op.write VOLCANO_STAT2_REGISTER_UUID
        (encode_bit_mask VOLCANO_STAT2_FAHRENHEIT_ENABLED_MASK (decide (u = TempUnit.celsius)))] ∧
    (set_display_on_cooling s b ok).ops =
      [Op.write VOLCANO_STAT2_REGISTER_UUID
        (encode_bit_mask VOLCANO_STAT2_DISPLAY_ON_COOLING_MASK b)] ∧
    (set_vibration_enabled s b ok).ops =
      [Op.write VOLCANO_STAT3_REGISTER_UUID
        (encode_bit_mask VOLCANO_STAT3_VIBRATION_ENABLED_MASK b)] := by
  refine ⟨rfl, ?_, ?_, ?_, ?_⟩
  · simp only [encode_bit_mask]
    split_ifs
    · exact fromBytesLE_u32leBytes mask (by omega)
    · exact fromBytesLE_u32leBytes (mask + 65536) (by omega)
  · simp only [set_temperature_unit]
    cases ok <;> rfl
  · simp only [set_display_on_cooling]
    cases ok <;> rfl
  · simp only [set_vibration_enabled]
    cases ok <;> rfl

theorem encode_bit_mask_toggle_check :
    (encode_bit_mask 512 true).length = 4 ∧
    fromBytesLE (encode_bit_mask 512 false) = 66048 := by
  refine ⟨(encode_bit_mask_toggle 512 true (initial_state "00") TempUnit.celsius true true
    (by decide)).1, ?_⟩
  exact ((encode_bit_mask_toggle 512 false (initial_state "00") TempUnit.celsius true true
    (by decide)).2.1).trans (by decide)

/-- C10: each setter can change only its own field — the state after the
call equals the input state with at most that one field replaced — and no
setter fires any change callback. -/
theorem setters_frame (s : VolcanoState) (t bri : Int) (b ok : Bool) (u : TempUnit) :
    ((set_heater s b ok).state =
      { s with heater_on := (set_heater s b ok).state.heater_on }) ∧
    ((set_pump s b ok).state =
      { s with pump_on := (set_pump s b ok).state.pump_on }) ∧
    ((set_target_temperature s t ok).state =
      { s with target_temperature := (set_target_temperature s t ok).state.target_temperature }) ∧
    ((set_led_brightness s bri ok).state =
      { s with led_brightness := (set_led_brightness s bri ok).state.led_brightness }) ∧
    ((set_temperature_unit s u ok).state =
      { s with temperature_unit := (set_temperature_unit s u ok).state.temperature_unit }) ∧
    ((set_display_on_cooling s b ok).state =
      { s with display_on_cooling := (set_display_on_cooling s b ok).state.display_on_cooling }) ∧
    ((set_vibration_enabled s b ok).state =
      { s with vibration_enabled := (set_vibration_enabled s b ok).state.vibration_enabled }) ∧
    ((set_heater s b ok).events = []) ∧
    ((set_pump s b ok).events = []) ∧
    ((set_target_temperature s t ok).events = []) ∧
    ((set_led_brightness s bri ok).events = []) ∧
    ((set_temperature_unit s u ok).events = []) ∧
    ((set_display_on_cooling s b ok).events = []) ∧
    ((set_vibration_enabled s b ok).events = []) := by
  refine ⟨?_, ?_, ?_, ?_, ?_, ?_, ?_, ?_, ?_, ?_, ?_, ?_, ?_, ?_⟩ <;>
    simp only [set_target_temperature_cases, set_heater, set_pump, set_led_brightness,
      set_temperature_unit, set_display_on_cooling, set_vibration_enabled] <;>
    split_ifs <;>
    rfl

end Volcanobt
